import Mathlib

/-!
Shallow embedding of the email-automation pipeline
(src/main.py, src/llm_calls.py, src/templates.py).

Modelling conventions:
* A Python dict value is `Option String` (`none` is Python `None`); an email
  field is `Option (Option String)`, with the outer `none` meaning the key is
  absent from the dict.
* Side effects (console prints, logger calls, the mock downstream service
  functions, and the two LLM calls) are recorded in an event trace.
* Python exceptions are `Except PyError`; code inside the `try` of
  `process_email` that raises lands in the embedded `except` clause, while the
  `email['id']` access before the `try` can escape as an uncaught error.
* The LLM client (`BaseClient` in src/llm_calls.py) is abstract: its two
  operations return `Option String` (the `OpenAIClient` implementation catches
  all of its own exceptions and returns `None` on failure), so it is a pair of
  arbitrary pure functions here.
-/

/-- The Python exceptions the pipeline can raise. -/
inductive PyError where
  | keyError (key : String)
  | typeError (msg : String)
  | valueError (msg : String)
  deriving Repr, DecidableEq

/-- str(e) for the exceptions raised by the pipeline; str(KeyError(k)) shows
the missing key wrapped in single quotes. -/
def PyError.toMessage : PyError → String
  | .keyError k => "\x27" ++ k ++ "\x27"
  | .typeError m => m
  | .valueError m => m

/-- Observable actions of the pipeline, in program order.  Each mock service
function of src/main.py (lines 252-280) only logs, so its call is the event. -/
inductive Event where
  | consolePrint (text : String)
  | logWarning (msg : String)
  | logError (msg : String)
  | classifyCall (prompt : String)
  | responseCall (prompt : String)
  | sendComplaintResponse (emailId : Option String) (response : String)
  | sendStandardResponse (emailId : Option String) (response : String)
  | createUrgentTicket (emailId : Option String) (category : String) (context : String)
  | createSupportTicket (emailId : Option String) (context : String)
  | logCustomerFeedback (emailId : Option String) (feedback : String)
  deriving Repr, DecidableEq

/-- An email dict.  The pipeline only ever reads the five required keys, so
the dict is modelled by those five fields; each is `none` when the key is
absent and `some none` when it is present with value `None`. -/
structure Email where
  id : Option (Option String)
  fromAddr : Option (Option String)
  subject : Option (Option String)
  body : Option (Option String)
  timestamp : Option (Option String)
  deriving Repr, DecidableEq

/-- Key lookup in the email dict (`k in email` / `email.get(k)`). -/
def Email.get (e : Email) (k : String) : Option (Option String) :=
  if k = "id" then e.id
  else if k = "from" then e.fromAddr
  else if k = "subject" then e.subject
  else if k = "body" then e.body
  else if k = "timestamp" then e.timestamp
  else none

/-- Subscript access email[k]: raises KeyError when the key is absent. -/
def Email.getItem (e : Email) (k : String) : Except PyError (Option String) :=
  match e.get k with
  | none => Except.error (PyError.keyError k)
  | some v => Except.ok v

/-- f-string rendering of a possibly-None string (str(None) is "None"). -/
def pyStr : Option String → String
  | none => "None"
  | some s => s

/-- Python `x or y` for an optional string `x`: `None` and `""` are falsy. -/
def pyOrStr (x : Option String) (y : String) : String :=
  match x with
  | none => y
  | some s => if s = "" then y else s

/-- Python truthiness of an optional string. -/
def pyTruthy : Option String → Bool
  | none => false
  | some s => s != ""

/-- str.replace for the single-character pattern used at src/main.py line 86
(`email['timestamp'].replace('Z', '+00:00')`): every occurrence of the
character is replaced. -/
def pyReplaceChar (s : String) (pat : Char) (rep : String) : String :=
  String.mk (s.data.foldr (fun c acc => if c == pat then rep.data ++ acc else c :: acc) [])

/-! ### Templates (src/templates.py) -/

def SYSTEM_PROMPT : String :=
  "You are an Email Support Agent. \nYou are part of an organization that sells technological products and offers delivery as a service.\nThe name of your company is WonderTech.\nAnswer in a polite, empathetic and formal way.\nAnswer in the same language as the email sent to you"

/-- CLASSIFICATION_TEMPLATE.format(categories=..., email_data=...). -/
def CLASSIFICATION_TEMPLATE_format (categories email_data : String) : String :=
  "You are a classifier. Your role is to classify an email based on its subject and body.\nJust answer with one of the following category names.\nThe possible categories are:\n"
    ++ categories
    ++ "\n\nHere are some examples:\n\n-Compliant: Customer is upset, reports a problem, demands refund.\n-Inquiry: Asks question about products or services\n-Feedback: Provides price or constructive feedback\n-Support request: Requests technical assistance or troubleshooting.\n-Other: Business proposals, partnership requests, spam, or any other topic not covered in the above categories\n\n\nEmail Data:\n"
    ++ email_data ++ "\n"

/-- RESPONSES_TEMPLATE.format(classification=..., specific_classification_instruction=..., email_data=...). -/
def RESPONSES_TEMPLATE_format (classification instruction email_data : String) : String :=
  "You are a Customer Service Agent.\nGenerate a concise, professional response based on the email subject and body.\nRespond just with the email body.\n\nCategory: "
    ++ classification
    ++ "\n\nSpecific Classification Instruction: " ++ instruction
    ++ "\n\nEmail Data: \n" ++ email_data
    ++ "\n\nResponse:"

/-! ### EmailProcessor data (src/main.py lines 23-40) -/

/-- The valid categories (a Python set literal; listed in source order, and the
membership tests below do not depend on the order). -/
def valid_categories : List String :=
  ["complaint", "inquiry", "feedback", "support_request", "other"]

/-- The required fields (a Python set literal; the boolean outcome of the
validation loop does not depend on the iteration order). -/
def required_fields : List String :=
  ["id", "from", "subject", "body", "timestamp"]

/-! ### Validation helpers -/

/-- Python re.match of the raw pattern caret-digit-3-dollar succeeds iff `s` is three decimal digits,
optionally followed by one trailing newline: in Python, `$` (without
re.MULTILINE) also matches just before a newline that ends the string.
`\d` is modelled on ASCII decimal digits. -/
def matchesIdPattern (s : String) : Bool :=
  match s.data with
  | [a, b, c] => a.isDigit && b.isDigit && c.isDigit
  | [a, b, c, d] => a.isDigit && b.isDigit && c.isDigit && d == '\n'
  | _ => false

/-- Python str whitespace (ASCII fragment), as used by str.split() with no
arguments. -/
def pyIsSpace (c : Char) : Bool :=
  c == ' ' || c == '\t' || c == '\n' || c == '\r' || c == '\x0b' || c == '\x0c'

/-- Body check: email body split() is non-empty iff the body has a character outside
Python str whitespace (src/main.py line 80). -/
def bodyHasContent (s : String) : Bool :=
  s.data.any (fun c => !(pyIsSpace c))

/-! ### datetime.fromisoformat (Python standard library)

The validation wraps `datetime.fromisoformat` in try/except and only uses
whether it raises.  The parser below models the CPython grammar
`YYYY-MM-DD[*HH[:MM[:SS[.fff[fff]]]][+HH:MM[:SS[.ffffff]]]]` accepted by all
supported CPython versions. -/

def digitVal (c : Char) : Nat := c.toNat - 48

def twoDigits : List Char → Option (Nat × List Char)
  | a :: b :: rest =>
    if a.isDigit && b.isDigit then some (digitVal a * 10 + digitVal b, rest) else none
  | _ => none

def isLeapYear (y : Nat) : Bool :=
  y % 4 == 0 && (y % 100 != 0 || y % 400 == 0)

def daysInMonth (y m : Nat) : Nat :=
  if m == 2 then (if isLeapYear y then 29 else 28)
  else if m == 4 || m == 6 || m == 9 || m == 11 then 30
  else 31

def parseDateChars : List Char → Option (Nat × Nat × Nat × List Char)
  | y1 :: y2 :: y3 :: y4 :: sep1 :: m1 :: m2 :: sep2 :: d1 :: d2 :: rest =>
    if sep1 == '-' && sep2 == '-' && [y1, y2, y3, y4, m1, m2, d1, d2].all Char.isDigit then
      some (digitVal y1 * 1000 + digitVal y2 * 100 + digitVal y3 * 10 + digitVal y4,
            digitVal m1 * 10 + digitVal m2,
            digitVal d1 * 10 + digitVal d2, rest)
    else none
  | _ => none

/-- Fractional seconds: exactly 3 or 6 digits. -/
def parseFracDigits (cs : List Char) : Option (List Char) :=
  let n := (cs.takeWhile Char.isDigit).length
  if n == 3 || n == 6 then some (cs.drop n) else none

/-- Time part HH[:MM[:SS[.fff[fff]]]]; returns the unconsumed rest (the offset part). -/
def parseTimeChars (cs : List Char) : Option (List Char) :=
  match twoDigits cs with
  | none => none
  | some (h, rest1) =>
    if h ≥ 24 then none else
    match rest1 with
    | ':' :: rest2 =>
      match twoDigits rest2 with
      | none => none
      | some (m, rest3) =>
        if m ≥ 60 then none else
        match rest3 with
        | ':' :: rest4 =>
          match twoDigits rest4 with
          | none => none
          | some (s, rest5) =>
            if s ≥ 60 then none else
            match rest5 with
            | '.' :: rest6 => parseFracDigits rest6
            | _ => some rest5
        | _ => some rest3
    | _ => some rest1

/-- Empty, or `±HH:MM[:SS[.ffffff]]` consuming everything. -/
def parseOffsetChars : List Char → Option Unit
  | [] => some ()
  | sgn :: rest =>
    if sgn == '+' || sgn == '-' then
      match twoDigits rest with
      | some (h, r1) =>
        if h ≥ 24 then none else
        match r1 with
        | ':' :: r2 =>
          match twoDigits r2 with
          | some (m, r3) =>
            if m ≥ 60 then none else
            match r3 with
            | [] => some ()
            | ':' :: r4 =>
              match twoDigits r4 with
              | some (s, r5) =>
                if s ≥ 60 then none else
                match r5 with
                | [] => some ()
                | '.' :: r6 =>
                  if (r6.takeWhile Char.isDigit).length == 6 && r6.drop 6 == [] then some ()
                  else none
                | _ => none
              | none => none
            | _ => none
          | none => none
        | _ => none
      | none => none
    else none

/-- True iff `datetime.fromisoformat` accepts the string without raising. -/
def fromisoformatOk (s : String) : Bool :=
  match parseDateChars s.data with
  | none => false
  | some (y, m, d, rest) =>
    if y < 1 || m < 1 || m > 12 || d < 1 || d > daysInMonth y m then false
    else
      match rest with
      | [] => true
      | _sep :: timecs =>
        match parseTimeChars timecs with
        | none => false
        | some rest2 =>
          match parseOffsetChars rest2 with
          | some _ => true
          | none => false

/-! ### EmailProcessor methods (src/main.py lines 67-160) -/

/-- The field-presence loop of validate_email_format (lines 69-72): the first
required field that is absent or None, scanning in source list order (Python
iterates a set; which missing field is reported first is the only
order-dependent part). -/
def firstBadField (e : Email) : List String → Option String
  | [] => none
  | f :: fs =>
    match e.get f with
    | some (some _) => firstBadField e fs
    | _ => some f

/-- EmailProcessor.validate_email_format (lines 67-91), with its warning log
events. -/
def validate_email_format (email : Email) : Bool × List Event :=
  match firstBadField email required_fields with
  | some f => (false, [Event.logWarning ("Required field missing: " ++ f)])
  | none =>
    match email.id, email.body, email.timestamp with
    | some (some idv), some (some bodyv), some (some tsv) =>
      if !matchesIdPattern idv then
        (false, [Event.logWarning ("Invalid ID format " ++ idv ++ " - 3 digits required")])
      else if !bodyHasContent bodyv then
        (false, [Event.logWarning ("Body must not be empty " ++ idv)])
      else if !fromisoformatOk (pyReplaceChar tsv 'Z' "+00:00") then
        (false, [Event.logWarning ("Invalid timestamp format " ++ tsv)])
      else (true, [])
    | _, _, _ => (false, [])  -- unreachable: firstBadField found all fields present

/-- EmailProcessor.get_email_subject_and_body (lines 93-99): reads the two
keys, concatenates, prints.  A present-but-None subject or body makes the
concatenation raise TypeError. -/
def get_email_subject_and_body (email : Email) : Except PyError (String × List Event) :=
  match Email.getItem email "subject" with
  | Except.error e => Except.error e
  | Except.ok subjectv =>
    match Email.getItem email "body" with
    | Except.error e => Except.error e
    | Except.ok bodyv =>
      match subjectv, bodyv with
      | some subject, some body =>
        let result := "Subject:\n" ++ subject ++ "\n\n" ++ "Body:\n" ++ body
        Except.ok (result, [Event.consolePrint ("result:  " ++ result)])
      | _, _ => Except.error (PyError.typeError "can only concatenate str (not \x22NoneType\x22) to str")

/-- The abstract LLM client (BaseClient of src/llm_calls.py): both operations
of the OpenAIClient implementation catch their own exceptions and return
None on failure, so a client is a pair of pure functions. -/
structure BaseClient where
  get_classification : Email → String → Option String
  get_response : Email → String → Option String

/-- EmailProcessor.classify_email (lines 103-125). -/
def classify_email (client : BaseClient) (email : Email) :
    Except PyError (Option String × List Event) :=
  match get_email_subject_and_body email with
  | Except.error e => Except.error e
  | Except.ok (email_data, ev1) =>
    let classification_prompt :=
      CLASSIFICATION_TEMPLATE_format (String.intercalate ", " valid_categories) email_data
    let classification := client.get_classification email classification_prompt
    let ev2 := ev1 ++ [Event.classifyCall classification_prompt]
    let warnResult : Except PyError (Option String × List Event) :=
      match Email.getItem email "id" with
      | Except.error e => Except.error e
      | Except.ok idv =>
        Except.ok (none, ev2 ++ [Event.logWarning ("Error while classifying email with ID: " ++ pyStr idv)])
    match classification with
    | some c => if c ∈ valid_categories then Except.ok (some c, ev2) else warnResult
    | none => warnResult

/-- The response_prompts dict literal of generate_response (lines 137-151). -/
def response_prompts : List (String × String) :=
  [("complaint", "Apologize sincerely, offer a resolution, and ask for any additional details."),
   ("inquiry", "Provide a clear, helpful answer. Offer further assistance if needed."),
   ("feedback", "Thank the customer and explain how their feedback is valued."),
   ("support_request", "Acknowledge the issue and inform that a support ticket has been created."),
   ("other", "Respond politely and offer to assist further if needed."),
   ("spam", "Respond only with: [NO_RESPONSE]")]

/-- EmailProcessor.generate_response (lines 127-160): the dict lookup
`response_prompts[classification]` raises KeyError for an unknown key and is
evaluated before get_email_subject_and_body. -/
def generate_response (client : BaseClient) (email : Email) (classification : String) :
    Except PyError (Option String × List Event) :=
  match response_prompts.lookup classification with
  | none => Except.error (PyError.keyError classification)
  | some instruction =>
    match get_email_subject_and_body email with
    | Except.error e => Except.error e
    | Except.ok (email_data, ev1) =>
      let response_prompt := RESPONSES_TEMPLATE_format classification instruction email_data
      Except.ok (client.get_response email response_prompt,
        ev1 ++ [Event.responseCall response_prompt])

/-! ### Mock downstream services (src/main.py lines 252-280) -/

def send_complaint_response (email_id : Option String) (response : String) : List Event :=
  [Event.sendComplaintResponse email_id response]

def send_standard_response (email_id : Option String) (response : String) : List Event :=
  [Event.sendStandardResponse email_id response]

def create_urgent_ticket (email_id : Option String) (category : String) (context : String) : List Event :=
  [Event.createUrgentTicket email_id category context]

def create_support_ticket (email_id : Option String) (context : String) : List Event :=
  [Event.createSupportTicket email_id context]

def log_customer_feedback (email_id : Option String) (feedback : String) : List Event :=
  [Event.logCustomerFeedback email_id feedback]

/-! ### Handlers (src/main.py lines 213-250) -/

/-- EmailAutomationSystem._handle_complaint. -/
def handle_complaint (email : Email) (response : String) : Except PyError (List Event) :=
  match Email.getItem email "id" with
  | Except.error e => Except.error e
  | Except.ok idv =>
    match get_email_subject_and_body email with
    | Except.error e => Except.error e
    | Except.ok (context, ev) =>
      Except.ok (ev ++ create_urgent_ticket idv "complaint" context ++
        send_complaint_response idv response)

/-- EmailAutomationSystem._handle_inquiry. -/
def handle_inquiry (email : Email) (response : String) : Except PyError (List Event) :=
  match Email.getItem email "id" with
  | Except.error e => Except.error e
  | Except.ok idv => Except.ok (send_standard_response idv response)

/-- EmailAutomationSystem._handle_feedback. -/
def handle_feedback (email : Email) (response : String) : Except PyError (List Event) :=
  match Email.getItem email "id" with
  | Except.error e => Except.error e
  | Except.ok idv =>
    match get_email_subject_and_body email with
    | Except.error e => Except.error e
    | Except.ok (feedback, ev) =>
      Except.ok (ev ++ log_customer_feedback idv feedback ++ send_standard_response idv response)

/-- EmailAutomationSystem._handle_support_request. -/
def handle_support_request (email : Email) (response : String) : Except PyError (List Event) :=
  match Email.getItem email "id" with
  | Except.error e => Except.error e
  | Except.ok idv =>
    match get_email_subject_and_body email with
    | Except.error e => Except.error e
    | Except.ok (context, ev) =>
      Except.ok (ev ++ create_support_ticket idv context ++ send_standard_response idv response)

/-- EmailAutomationSystem._handle_other. -/
def handle_other (email : Email) (response : String) : Except PyError (List Event) :=
  match Email.getItem email "id" with
  | Except.error e => Except.error e
  | Except.ok idv =>
    match get_email_subject_and_body email with
    | Except.error e => Except.error e
    | Except.ok (context, ev) =>
      Except.ok (ev ++ create_support_ticket idv context ++ send_standard_response idv response)

/-- The response_handlers dispatch table (src/main.py lines 166-172). -/
def response_handlers : List (String × (Email → String → Except PyError (List Event))) :=
  [("complaint", handle_complaint),
   ("inquiry", handle_inquiry),
   ("feedback", handle_feedback),
   ("support_request", handle_support_request),
   ("other", handle_other)]

/-- Dict lookup self.response_handlers.get(classification, self._handle_other)
(src/main.py line 205). -/
def response_handlers_get (classification : String) :
    Email → String → Except PyError (List Event) :=
  match response_handlers.lookup classification with
  | some h => h
  | none => handle_other

/-! ### process_email (src/main.py lines 174-211) -/

/-- The result dict built at lines 184-189 and returned in all non-crashing
paths; by construction it has exactly the four keys email_id, success,
classification, response_sent (`result.update` at line 206 touches only
success and response_sent). -/
structure Result where
  email_id : Option String
  success : Bool
  classification : Option String
  response_sent : Bool
  deriving Repr, DecidableEq

/-- The except clause of process_email (lines 207-209): log the error, then
create a support ticket recording str(e). -/
def except_block (idv : Option String) (e : PyError) : List Event :=
  [Event.logError ("Error while processing email with ID: " ++ pyStr idv)] ++
    create_support_ticket idv ("Error: " ++ e.toMessage)

/-- EmailAutomationSystem.process_email.  The `email['id']` read at line 185
happens before the try block, so a missing id key escapes as an uncaught
KeyError; every exception raised inside the try lands in `except_block`. -/
def process_email (client : BaseClient) (email : Email) :
    Except PyError (Result × List Event) :=
  match Email.getItem email "id" with
  | Except.error e => Except.error e
  | Except.ok idv =>
    let result0 : Result :=
      { email_id := idv, success := false, classification := none, response_sent := false }
    let v := validate_email_format email
    if !v.fst then
      Except.ok (result0, v.snd ++
        [Event.logWarning ("Invalid email format for email with ID: " ++ pyStr idv)])
    else
      match classify_email client email with
      | Except.error e => Except.ok (result0, v.snd ++ except_block idv e)
      | Except.ok (cls, ev2) =>
        let classification := pyOrStr cls "other"
        let result1 := { result0 with classification := some classification }
        match generate_response client email classification with
        | Except.error e => Except.ok (result1, v.snd ++ ev2 ++ except_block idv e)
        | Except.ok (response, ev3) =>
          if !pyTruthy response then
            Except.ok (result1, v.snd ++ ev2 ++ ev3 ++
              except_block idv (PyError.valueError
                ("Error while generating response for email with ID: " ++ pyStr idv)))
          else
            -- pyTruthy guarantees the response is a (non-empty) string
            match response_handlers_get classification email (response.getD "") with
            | Except.error e => Except.ok (result1, v.snd ++ ev2 ++ ev3 ++ except_block idv e)
            | Except.ok ev4 =>
              Except.ok ({ result1 with success := true, response_sent := true },
                v.snd ++ ev2 ++ ev3 ++ ev4)

/-- The processing loop of run_demonstration (lines 293-297): each email is
processed independently and the results collected in order. -/
def process_all (client : BaseClient) (emails : List Email) :
    List (Except PyError (Result × List Event)) :=
  emails.map (process_email client)

/-! ### Trace observations -/

/-- The three pipeline stages after validation, as observed in the trace. -/
inductive Stage where
  | classify | respond | dispatch
  deriving Repr, DecidableEq

/-- classifyCall and responseCall are the two LLM calls; a handler dispatch is
observed by the exactly-one response-send event every handler emits. -/
def stageOf : Event → Option Stage
  | Event.classifyCall _ => some Stage.classify
  | Event.responseCall _ => some Stage.respond
  | Event.sendComplaintResponse _ _ => some Stage.dispatch
  | Event.sendStandardResponse _ _ => some Stage.dispatch
  | _ => none

def stages (tr : List Event) : List Stage := tr.filterMap stageOf

/-- The downstream service actions (mock ticket/response/feedback calls),
excluding console prints and logger lines. -/
def isDownstream : Event → Bool
  | Event.sendComplaintResponse _ _ => true
  | Event.sendStandardResponse _ _ => true
  | Event.createUrgentTicket _ _ _ => true
  | Event.createSupportTicket _ _ => true
  | Event.logCustomerFeedback _ _ => true
  | _ => false

def downstream (tr : List Event) : List Event := tr.filter isDownstream

/-- Trace of a run that returned normally. -/
def runTrace {α : Type} (x : Except PyError (α × List Event)) : List Event :=
  match x with
  | Except.ok (_, tr) => tr
  | Except.error _ => []

/-- Value returned by a classify_email run that returned normally. -/
def runCls (x : Except PyError (Option String × List Event)) : Option String :=
  match x with
  | Except.ok (c, _) => c
  | Except.error _ => none

/-- Result dict of a run that returned normally. -/
def runResult (x : Except PyError (Result × List Event)) : Result :=
  match x with
  | Except.ok (r, _) => r
  | Except.error _ =>
    { email_id := none, success := false, classification := none, response_sent := false }

-- Except values are comparable, so concrete runs can be evaluated by decide.
deriving instance DecidableEq for Except

set_option maxRecDepth 100000

/-- The subject-plus-body string built by get_email_subject_and_body. -/
def subjectBody (s b : String) : String := "Subject:\n" ++ s ++ "\n\n" ++ "Body:\n" ++ b

/-! ## Concrete runs used by witnesses and counterexamples -/

/-- A well-formed sample email. -/
def emailOk : Email :=
  { id := some (some "123"), fromAddr := some (some "alice@example.com"),
    subject := some (some "Hi"), body := some (some "Hello there"),
    timestamp := some (some "2024-01-01T10:00:00Z") }

/-- A client whose two LLM calls both succeed. -/
def clientOk : BaseClient :=
  { get_classification := fun _ _ => some "inquiry",
    get_response := fun _ _ => some "Thanks." }

/-- A client whose response generation fails (returns None), as OpenAIClient
does whenever the API call raises. -/
def clientNoResponse : BaseClient :=
  { get_classification := fun _ _ => some "inquiry",
    get_response := fun _ _ => none }

/-- The same well-formed email except that the id is three digits followed by
a newline. -/
def emailNewlineId : Email :=
  { id := some (some "123\n"), fromAddr := some (some "alice@example.com"),
    subject := some (some "Hi"), body := some (some "Hello there"),
    timestamp := some (some "2024-01-01T10:00:00Z") }

/-- An email whose dict lacks the id key. -/
def emailNoId : Email :=
  { id := none, fromAddr := some (some "alice@example.com"),
    subject := some (some "Hi"), body := some (some "Hello"),
    timestamp := some (some "2024-01-01T10:00:00Z") }

/-- The successful concrete run. -/
def runOk : Except PyError (Result × List Event) := process_email clientOk emailOk

/-- The concrete run in which response generation fails. -/
def runNoResp : Except PyError (Result × List Event) := process_email clientNoResponse emailOk

/-! ## Basic trace lemmas -/

theorem stages_append (a b : List Event) : stages (a ++ b) = stages a ++ stages b := by
  simp [stages]

theorem downstream_append (a b : List Event) : downstream (a ++ b) = downstream a ++ downstream b := by
  simp [downstream]

theorem stages_except (idv : Option String) (e : PyError) : stages (except_block idv e) = [] := by
  simp [except_block, create_support_ticket, stages, stageOf]

/-! ## Validation lemmas -/

theorem firstBadField_cons (e : Email) (f : String) (fs : List String) :
    firstBadField e (f :: fs) = none ↔
      (∃ v, e.get f = some (some v)) ∧ firstBadField e fs = none := by
  rcases h : e.get f with _ | (_ | v) <;> simp [firstBadField, h]

theorem firstBadField_nil (e : Email) : firstBadField e [] = none := rfl

theorem firstBadField_required (email : Email) :
    firstBadField email required_fields = none ↔
      (∃ v, email.id = some (some v)) ∧ (∃ v, email.fromAddr = some (some v)) ∧
      (∃ v, email.subject = some (some v)) ∧ (∃ v, email.body = some (some v)) ∧
      (∃ v, email.timestamp = some (some v)) := by
  simp only [required_fields, firstBadField_cons, firstBadField_nil, and_true]
  simp [Email.get]

/-- A run of validate_email_format that succeeds produced no events. -/
theorem validate_true_eq (email : Email) (h : (validate_email_format email).fst = true) :
    validate_email_format email = (true, []) := by
  unfold validate_email_format at h ⊢
  split at h
  · simp at h
  · split at h
    · split_ifs at h with h1 h2 h3
      rw [if_neg h1, if_neg h2, if_neg h3]
    · simp at h

/-- The events of validate_email_format are logger warnings only. -/
theorem stages_validate (email : Email) : stages (validate_email_format email).snd = [] := by
  unfold validate_email_format
  split
  · simp [stages, stageOf]
  · split
    · split_ifs <;> simp [stages, stageOf]
    · simp [stages]

/-- Full characterization of validate_email_format (src/main.py lines 67-91). -/
theorem validate_spec (email : Email) :
    (validate_email_format email).fst = true ↔
      ∃ idv fromv subjectv bodyv tsv,
        email.id = some (some idv) ∧ email.fromAddr = some (some fromv) ∧
        email.subject = some (some subjectv) ∧ email.body = some (some bodyv) ∧
        email.timestamp = some (some tsv) ∧
        matchesIdPattern idv = true ∧ bodyHasContent bodyv = true ∧
        fromisoformatOk (pyReplaceChar tsv 'Z' "+00:00") = true := by
  constructor
  · intro h
    rcases hf : firstBadField email required_fields with _ | f
    · obtain ⟨⟨idv, hid⟩, ⟨fromv, hfrom⟩, ⟨subjv, hsub⟩, ⟨bodyv, hbody⟩, ⟨tsv, hts⟩⟩ :=
        (firstBadField_required email).mp hf
      unfold validate_email_format at h
      rw [hf, hid, hbody, hts] at h
      dsimp only at h
      split_ifs at h with h1 h2 h3
      have e1 : matchesIdPattern idv = true := by
        revert h1; cases matchesIdPattern idv <;> simp
      have e2 : bodyHasContent bodyv = true := by
        revert h2; cases bodyHasContent bodyv <;> simp
      have e3 : fromisoformatOk (pyReplaceChar tsv 'Z' "+00:00") = true := by
        revert h3; cases hi : fromisoformatOk (pyReplaceChar tsv 'Z' "+00:00") <;> simp
      exact ⟨idv, fromv, subjv, bodyv, tsv, hid, hfrom, hsub, hbody, hts, e1, e2, e3⟩
    · unfold validate_email_format at h
      rw [hf] at h
      simp at h
  · rintro ⟨idv, fromv, subjv, bodyv, tsv, hid, hfrom, hsub, hbody, hts, hpat, hbc, hiso⟩
    have hf : firstBadField email required_fields = none :=
      (firstBadField_required email).mpr
        ⟨⟨idv, hid⟩, ⟨fromv, hfrom⟩, ⟨subjv, hsub⟩, ⟨bodyv, hbody⟩, ⟨tsv, hts⟩⟩
    unfold validate_email_format
    rw [hf, hid, hbody, hts]
    simp [hpat, hbc, hiso]

/-! ## Run lemmas for the pipeline pieces -/

theorem gesb_ok (email : Email) (s b : String)
    (hs : email.subject = some (some s)) (hb : email.body = some (some b)) :
    get_email_subject_and_body email =
      Except.ok (subjectBody s b, [Event.consolePrint ("result:  " ++ subjectBody s b)]) := by
  simp [get_email_subject_and_body, Email.getItem, Email.get, hs, hb, subjectBody]

theorem getItem_id (email : Email) (idv : Option String) (hid : email.id = some idv) :
    Email.getItem email "id" = Except.ok idv := by
  simp [Email.getItem, Email.get, hid]

theorem classify_email_run (client : BaseClient) (email : Email) (idv : Option String)
    (s b : String) (hid : email.id = some idv)
    (hs : email.subject = some (some s)) (hb : email.body = some (some b)) :
    ∃ c ev, classify_email client email = Except.ok (c, ev) ∧
      stages ev = [Stage.classify] ∧
      (c = none ∨ ∃ cat, c = some cat ∧ cat ∈ valid_categories) := by
  unfold classify_email
  rw [gesb_ok email s b hs hb, getItem_id email idv hid]
  dsimp only
  split
  · split
    · exact ⟨_, _, rfl, by simp [stages, stageOf], Or.inr ⟨_, rfl, by assumption⟩⟩
    · exact ⟨_, _, rfl, by simp [stages, stageOf], Or.inl rfl⟩
  · exact ⟨_, _, rfl, by simp [stages, stageOf], Or.inl rfl⟩

theorem generate_response_run (client : BaseClient) (email : Email)
    (s b : String) (hs : email.subject = some (some s)) (hb : email.body = some (some b))
    (cat : String) (hcat : cat ∈ valid_categories) :
    ∃ r ev, generate_response client email cat = Except.ok (r, ev) ∧
      stages ev = [Stage.respond] := by
  obtain ⟨instr, hl⟩ : ∃ instr, response_prompts.lookup cat = some instr := by
    simp only [valid_categories, List.mem_cons, List.not_mem_nil, or_false] at hcat
    rcases hcat with rfl | rfl | rfl | rfl | rfl <;> exact ⟨_, rfl⟩
  unfold generate_response
  rw [hl, gesb_ok email s b hs hb]
  dsimp only
  exact ⟨_, _, rfl, by simp [stages, stageOf]⟩

/-- Every entry of the dispatch table (and the `.get` default) is one of the
five handlers. -/
theorem response_handlers_get_cases (c : String) :
    response_handlers_get c = handle_complaint ∨ response_handlers_get c = handle_inquiry ∨
    response_handlers_get c = handle_feedback ∨
    response_handlers_get c = handle_support_request ∨
    response_handlers_get c = handle_other := by
  unfold response_handlers_get response_handlers
  simp only [List.lookup]
  cases h1 : c == "complaint"
  · cases h2 : c == "inquiry"
    · cases h3 : c == "feedback"
      · cases h4 : c == "support_request"
        · cases h5 : c == "other"
          · simp [h1, h2, h3, h4, h5]
          · simp [h1, h2, h3, h4, h5]
        · simp [h1, h2, h3, h4]
      · simp [h1, h2, h3]
    · simp [h1, h2]
  · simp [h1]

theorem handle_complaint_run (email : Email) (idv : Option String) (s b resp : String)
    (hid : email.id = some idv)
    (hs : email.subject = some (some s)) (hb : email.body = some (some b)) :
    handle_complaint email resp = Except.ok
      [Event.consolePrint ("result:  " ++ subjectBody s b),
       Event.createUrgentTicket idv "complaint" (subjectBody s b),
       Event.sendComplaintResponse idv resp] := by
  simp [handle_complaint, getItem_id email idv hid, gesb_ok email s b hs hb,
    create_urgent_ticket, send_complaint_response]

theorem handle_inquiry_run (email : Email) (idv : Option String) (resp : String)
    (hid : email.id = some idv) :
    handle_inquiry email resp = Except.ok [Event.sendStandardResponse idv resp] := by
  simp [handle_inquiry, getItem_id email idv hid, send_standard_response]

theorem handle_feedback_run (email : Email) (idv : Option String) (s b resp : String)
    (hid : email.id = some idv)
    (hs : email.subject = some (some s)) (hb : email.body = some (some b)) :
    handle_feedback email resp = Except.ok
      [Event.consolePrint ("result:  " ++ subjectBody s b),
       Event.logCustomerFeedback idv (subjectBody s b),
       Event.sendStandardResponse idv resp] := by
  simp [handle_feedback, getItem_id email idv hid, gesb_ok email s b hs hb,
    log_customer_feedback, send_standard_response]

theorem handle_support_request_run (email : Email) (idv : Option String) (s b resp : String)
    (hid : email.id = some idv)
    (hs : email.subject = some (some s)) (hb : email.body = some (some b)) :
    handle_support_request email resp = Except.ok
      [Event.consolePrint ("result:  " ++ subjectBody s b),
       Event.createSupportTicket idv (subjectBody s b),
       Event.sendStandardResponse idv resp] := by
  simp [handle_support_request, getItem_id email idv hid, gesb_ok email s b hs hb,
    create_support_ticket, send_standard_response]

theorem handle_other_run (email : Email) (idv : Option String) (s b resp : String)
    (hid : email.id = some idv)
    (hs : email.subject = some (some s)) (hb : email.body = some (some b)) :
    handle_other email resp = Except.ok
      [Event.consolePrint ("result:  " ++ subjectBody s b),
       Event.createSupportTicket idv (subjectBody s b),
       Event.sendStandardResponse idv resp] := by
  simp [handle_other, getItem_id email idv hid, gesb_ok email s b hs hb,
    create_support_ticket, send_standard_response]

/-- Every handler the dispatch reaches emits exactly one response-send
event. -/
theorem response_handlers_run (email : Email) (idv : Option String) (s b resp : String)
    (hid : email.id = some idv)
    (hs : email.subject = some (some s)) (hb : email.body = some (some b)) (c : String) :
    ∃ ev, response_handlers_get c email resp = Except.ok ev ∧
      stages ev = [Stage.dispatch] := by
  rcases response_handlers_get_cases c with hc | hc | hc | hc | hc <;> rw [hc]
  · exact ⟨_, handle_complaint_run email idv s b resp hid hs hb, by simp [stages, stageOf]⟩
  · exact ⟨_, handle_inquiry_run email idv resp hid, by simp [stages, stageOf]⟩
  · exact ⟨_, handle_feedback_run email idv s b resp hid hs hb, by simp [stages, stageOf]⟩
  · exact ⟨_, handle_support_request_run email idv s b resp hid hs hb, by simp [stages, stageOf]⟩
  · exact ⟨_, handle_other_run email idv s b resp hid hs hb, by simp [stages, stageOf]⟩

/-- Each of the five valid categories is a non-empty string. -/
theorem valid_categories_ne_empty (c : String) (hc : c ∈ valid_categories) : c ≠ "" := by
  simp only [valid_categories, List.mem_cons, List.not_mem_nil, or_false] at hc
  rcases hc with rfl | rfl | rfl | rfl | rfl <;> decide

/-! ## Characterization of process_email -/

/-- One theorem describing every normally-returning run of process_email:
the id key was present and recorded; either validation failed (base result,
no pipeline stage ran), or validation passed and the recorded classification
is a valid category ("other" when the client produced none), and the run
either succeeded with trace classify-respond-dispatch, or fell into the
except clause with trace classify-respond and the except-block events at the
end. -/
theorem process_email_spec (client : BaseClient) (email : Email) (r : Result) (tr : List Event)
    (h : process_email client email = Except.ok (r, tr)) :
    ∃ idv, email.id = some idv ∧ r.email_id = idv ∧
      (((validate_email_format email).fst = false ∧ r.success = false ∧
          r.classification = none ∧ r.response_sent = false ∧ stages tr = []) ∨
       ((validate_email_format email).fst = true ∧
          ∃ cat, r.classification = some cat ∧ cat ∈ valid_categories ∧
            (∀ ev0, classify_email client email = Except.ok (none, ev0) → cat = "other") ∧
            ((r.success = true ∧ r.response_sent = true ∧
                stages tr = [Stage.classify, Stage.respond, Stage.dispatch]) ∨
             (r.success = false ∧ r.response_sent = false ∧
                stages tr = [Stage.classify, Stage.respond] ∧
                ∃ pre e, tr = pre ++ except_block idv e)))) := by
  rcases hid : email.id with _ | idv
  · unfold process_email at h
    rw [Email.getItem] at h
    simp [Email.get, hid] at h
  · have hgi : Email.getItem email "id" = Except.ok idv := getItem_id email idv hid
    unfold process_email at h
    rw [hgi] at h
    dsimp only at h
    by_cases hv : (validate_email_format email).fst = true
    · -- validation passed
      have hveq : validate_email_format email = (true, []) := validate_true_eq email hv
      rw [hveq] at h
      simp only [Bool.not_true] at h
      rw [if_neg (by simp)] at h
      obtain ⟨idv', fromv, subjv, bodyv, tsv, hid', hfrom, hsub, hbody, hts, hpat, hbc, hiso⟩ :=
        (validate_spec email).mp hv
      obtain ⟨c?, ev2, hcl, hst2, hcv⟩ :=
        classify_email_run client email idv subjv bodyv hid hsub hbody
      rw [hcl] at h
      dsimp only at h
      have hcatmem : pyOrStr c? "other" ∈ valid_categories := by
        rcases c? with _ | cc
        · simp [pyOrStr, valid_categories]
        · rcases hcv with hbad | ⟨cat, hcat, hmem⟩
          · exact absurd hbad (by simp)
          · obtain rfl : cc = cat := by injection hcat
            simp only [pyOrStr]
            rw [if_neg (valid_categories_ne_empty cc hmem)]
            exact hmem
      obtain ⟨r?, ev3, hgen, hst3⟩ :=
        generate_response_run client email subjv bodyv hsub hbody (pyOrStr c? "other") hcatmem
      rw [hgen] at h
      dsimp only at h
      cases ht : pyTruthy r?
      · -- falsy response: ValueError, except clause
        rw [ht] at h
        simp only [Bool.not_false] at h
        rw [if_pos trivial] at h
        simp only [Except.ok.injEq, Prod.mk.injEq] at h
        obtain ⟨hr, htr⟩ := h
        refine ⟨idv, rfl, by rw [← hr], Or.inr ⟨hv, pyOrStr c? "other", by rw [← hr],
          hcatmem, ?_, Or.inr ⟨by rw [← hr], by rw [← hr], ?_, ?_⟩⟩⟩
        · intro ev0 hc0
          rw [hcl] at hc0
          simp only [Except.ok.injEq, Prod.mk.injEq] at hc0
          rw [hc0.1]
          simp [pyOrStr]
        · rw [← htr]
          simp [stages_append, hst2, hst3, stages_except]
        · exact ⟨ev2 ++ ev3,
            PyError.valueError ("Error while generating response for email with ID: " ++ pyStr idv),
            by rw [← htr]; simp [List.append_assoc]⟩
      · -- truthy response: handler dispatch, success
        rw [ht] at h
        simp only [Bool.not_true] at h
        rw [if_neg (by simp)] at h
        obtain ⟨ev4, hh, hst4⟩ :=
          response_handlers_run email idv subjv bodyv (r?.getD "") hid hsub hbody (pyOrStr c? "other")
        rw [hh] at h
        dsimp only at h
        simp only [Except.ok.injEq, Prod.mk.injEq] at h
        obtain ⟨hr, htr⟩ := h
        refine ⟨idv, rfl, by rw [← hr], Or.inr ⟨hv, pyOrStr c? "other", by rw [← hr],
          hcatmem, ?_, Or.inl ⟨by rw [← hr], by rw [← hr], ?_⟩⟩⟩
        · intro ev0 hc0
          rw [hcl] at hc0
          simp only [Except.ok.injEq, Prod.mk.injEq] at hc0
          rw [hc0.1]
          simp [pyOrStr]
        · rw [← htr]
          simp [stages_append, hst2, hst3, hst4]
    · -- validation failed
      have hvf : (validate_email_format email).fst = false := by
        revert hv; cases (validate_email_format email).fst <;> simp
      rw [hvf] at h
      simp only [Bool.not_false] at h
      rw [if_pos trivial] at h
      simp only [Except.ok.injEq, Prod.mk.injEq] at h
      obtain ⟨hr, htr⟩ := h
      refine ⟨idv, rfl, by rw [← hr], Or.inl ⟨hvf, by rw [← hr], by rw [← hr], by rw [← hr], ?_⟩⟩
      rw [← htr, stages_append, stages_validate]
      simp [stages, stageOf]

/-! ## Shape lemmas for the two validation predicates -/

theorem matchesIdPattern_iff (s : String) :
    matchesIdPattern s = true ↔
      ((∃ a b c, s.data = [a, b, c] ∧ a.isDigit ∧ b.isDigit ∧ c.isDigit) ∨
       (∃ a b c, s.data = [a, b, c, '\n'] ∧ a.isDigit ∧ b.isDigit ∧ c.isDigit)) := by
  unfold matchesIdPattern
  generalize s.data = l
  rcases l with _ | ⟨a, _ | ⟨b, _ | ⟨c, _ | ⟨d, _ | ⟨e, rest⟩⟩⟩⟩⟩ <;>
    (simp [Bool.and_eq_true, beq_iff_eq, and_assoc]; try tauto)

theorem bodyHasContent_iff (s : String) :
    bodyHasContent s = true ↔ ∃ ch, ch ∈ s.data ∧ pyIsSpace ch = false := by
  simp [bodyHasContent, List.any_eq_true, Bool.not_eq_true']


/-! ## Claim theorems -/

/-- C4 (amended): validate_email_format returns True iff the five required
fields are present with non-None values, the id is three decimal digits
optionally followed by one trailing newline (Python re `$` semantics), the
body has a non-whitespace character, and the timestamp parses as ISO-8601
after replacing 'Z' with '+00:00'. -/
theorem C4_validate_characterization (email : Email) :
    (validate_email_format email).fst = true ↔
      ∃ idv fromv subjectv bodyv tsv,
        email.id = some (some idv) ∧ email.fromAddr = some (some fromv) ∧
        email.subject = some (some subjectv) ∧ email.body = some (some bodyv) ∧
        email.timestamp = some (some tsv) ∧
        ((∃ a b c, idv.data = [a, b, c] ∧ a.isDigit ∧ b.isDigit ∧ c.isDigit) ∨
         (∃ a b c, idv.data = [a, b, c, '\n'] ∧ a.isDigit ∧ b.isDigit ∧ c.isDigit)) ∧
        (∃ ch, ch ∈ bodyv.data ∧ pyIsSpace ch = false) ∧
        fromisoformatOk (pyReplaceChar tsv 'Z' "+00:00") = true := by
  rw [validate_spec]
  constructor
  · rintro ⟨idv, fromv, sv, bv, tv, h1, h2, h3, h4, h5, h6, h7, h8⟩
    exact ⟨idv, fromv, sv, bv, tv, h1, h2, h3, h4, h5,
      (matchesIdPattern_iff idv).mp h6, (bodyHasContent_iff bv).mp h7, h8⟩
  · rintro ⟨idv, fromv, sv, bv, tv, h1, h2, h3, h4, h5, h6, h7, h8⟩
    exact ⟨idv, fromv, sv, bv, tv, h1, h2, h3, h4, h5,
      (matchesIdPattern_iff idv).mpr h6, (bodyHasContent_iff bv).mpr h7, h8⟩

/-- C4 counterexample: an email whose id is "123\n" — four characters, not
exactly three decimal digits — still passes validate_email_format, because
Python's `$` matches before a trailing newline. -/
theorem C4_newline_id_accepted :
    (validate_email_format emailNewlineId).fst = true ∧
    emailNewlineId.id = some (some "123\n") ∧
    "123\n".data.length ≠ 3 ∧ "123\n".data.all Char.isDigit = false := by decide

/-- C6: processing is stateless — nothing in the embedded pipeline carries
state between emails (the source assigns object attributes only in __init__),
so an email processed after any prefix of other emails yields exactly
process_email of that email. -/
theorem C6_stateless_processing (client : BaseClient) (pre post : List Email) (email : Email) :
    process_all client (pre ++ email :: post) =
      process_all client pre ++ process_email client email :: process_all client post ∧
    (process_all client (pre ++ email :: post))[pre.length]? =
      some (process_email client email) := by
  constructor
  · simp [process_all]
  · rw [process_all, List.map_append, List.map_cons]
    rw [List.getElem?_append_right (by simp)]
    simp

/-- C8: an email dict without the id key makes process_email raise an
uncaught KeyError: the result dict reads email['id'] before validation and
outside the try/except. -/
theorem C8_missing_id_raises (client : BaseClient) (email : Email) (h : email.id = none) :
    process_email client email = Except.error (PyError.keyError "id") := by
  unfold process_email
  rw [Email.getItem]
  simp [Email.get, h]

theorem C8_missing_id_raises_witness :
    emailNoId.id = none ∧
      process_email clientOk emailNoId = Except.error (PyError.keyError "id") :=
  ⟨rfl, C8_missing_id_raises clientOk emailNoId rfl⟩

/-- C1 (amended): for every run of process_email that returns, the stages run
in the fixed linear order.  If validation fails the base result (success
False, classification None, response not sent) is returned with no
classification, response-generation, or dispatch stage.  If validation
passes, the trace shows classify, then respond, then exactly one dispatched
handler when the run succeeds; when response generation yields a falsy
response the run takes the error path instead, with no dispatch. -/
theorem C1_pipeline_order (client : BaseClient) (email : Email) (r : Result) (tr : List Event)
    (h : process_email client email = Except.ok (r, tr)) :
    ((validate_email_format email).fst = false →
        r.success = false ∧ r.classification = none ∧ r.response_sent = false ∧
        stages tr = []) ∧
    ((validate_email_format email).fst = true →
        stages tr = [Stage.classify, Stage.respond, Stage.dispatch] ∨
          (stages tr = [Stage.classify, Stage.respond] ∧ r.success = false)) ∧
    (r.success = true → stages tr = [Stage.classify, Stage.respond, Stage.dispatch]) := by
  obtain ⟨idv, hid, hrid, hcases⟩ := process_email_spec client email r tr h
  rcases hcases with ⟨hvf, hs, hc, hrs, hst⟩ | ⟨hvt, cat, hc, hmem, hfb, hcase⟩
  · refine ⟨fun _ => ⟨hs, hc, hrs, hst⟩, fun hvt => ?_, fun hsT => ?_⟩
    · rw [hvf] at hvt; exact absurd hvt (by simp)
    · rw [hsT] at hs; exact absurd hs (by simp)
  · refine ⟨fun hvf => ?_, fun _ => ?_, fun hsT => ?_⟩
    · rw [hvf] at hvt; exact absurd hvt (by simp)
    · rcases hcase with ⟨_, _, hst⟩ | ⟨hsF, _, hst, _⟩
      · exact Or.inl hst
      · exact Or.inr ⟨hst, hsF⟩
    · rcases hcase with ⟨_, _, hst⟩ | ⟨hsF, _, hst, _⟩
      · exact hst
      · rw [hsT] at hsF; exact absurd hsF (by simp)

theorem C1_pipeline_order_witness :
    process_email clientOk emailOk = Except.ok (runResult runOk, runTrace runOk) ∧
    (((validate_email_format emailOk).fst = false →
        (runResult runOk).success = false ∧ (runResult runOk).classification = none ∧
        (runResult runOk).response_sent = false ∧ stages (runTrace runOk) = []) ∧
     ((validate_email_format emailOk).fst = true →
        stages (runTrace runOk) = [Stage.classify, Stage.respond, Stage.dispatch] ∨
          (stages (runTrace runOk) = [Stage.classify, Stage.respond] ∧
            (runResult runOk).success = false)) ∧
     ((runResult runOk).success = true →
        stages (runTrace runOk) = [Stage.classify, Stage.respond, Stage.dispatch])) :=
  ⟨by decide,
   C1_pipeline_order clientOk emailOk (runResult runOk) (runTrace runOk) (by decide)⟩

/-- C1 counterexample: with a client whose response generation fails,
a validated email goes through classification and response generation but no
handler is dispatched, so "exactly one handler is dispatched" does not hold
of every processed email. -/
theorem C1_no_dispatch_on_failed_response :
    (validate_email_format emailOk).fst = true ∧
    process_email clientNoResponse emailOk =
      Except.ok (runResult runNoResp, runTrace runNoResp) ∧
    stages (runTrace runNoResp) = [Stage.classify, Stage.respond] ∧
    (runResult runNoResp).success = false := by decide

/-- C5 (amended): whenever an exception is raised inside the try of
process_email for a validated email, the run is caught and ends with exactly
the except-clause actions — the error log line and a support ticket recording
str(e) — and the result has success=False and response_sent=False. -/
theorem C5_error_path_actions (client : BaseClient) (email : Email) (r : Result) (tr : List Event)
    (h : process_email client email = Except.ok (r, tr))
    (hv : (validate_email_format email).fst = true)
    (hfail : r.success = false) :
    r.response_sent = false ∧
      ∃ idv pre e, email.id = some idv ∧
        tr = pre ++
          [Event.logError ("Error while processing email with ID: " ++ pyStr idv),
           Event.createSupportTicket idv ("Error: " ++ PyError.toMessage e)] := by
  obtain ⟨idv, hid, hrid, hcases⟩ := process_email_spec client email r tr h
  rcases hcases with ⟨hvf, _, _, _, _⟩ | ⟨_, cat, _, _, _, hcase⟩
  · rw [hvf] at hv; exact absurd hv (by simp)
  · rcases hcase with ⟨hsT, _, _⟩ | ⟨_, hrs, _, pre, e, htr⟩
    · rw [hfail] at hsT; exact absurd hsT (by simp)
    · exact ⟨hrs, idv, pre, e, hid, by rw [htr]; rfl⟩

theorem C5_error_path_actions_witness :
    (runResult runNoResp).response_sent = false ∧
      ∃ idv pre e, emailOk.id = some idv ∧
        runTrace runNoResp = pre ++
          [Event.logError ("Error while processing email with ID: " ++ pyStr idv),
           Event.createSupportTicket idv ("Error: " ++ PyError.toMessage e)] :=
  C5_error_path_actions clientNoResponse emailOk (runResult runNoResp) (runTrace runNoResp)
    (by decide) (by decide) (by decide)

/-- C5 counterexample: on the error path the code does more than catch and
log — it also creates a support ticket recording the error, an extra
downstream side effect. -/
theorem C5_ticket_created_on_error :
    (validate_email_format emailOk).fst = true ∧
    (runResult runNoResp).success = false ∧
    Event.createSupportTicket (some "123")
        ("Error: Error while generating response for email with ID: 123") ∈
      runTrace runNoResp := by decide

/-- C7: in every returning run, the classification LLM call and the
response-generation LLM call each happen at most once; a classification the
client fails to produce makes the pipeline fall back to "other" (no retry),
and a failed response generation ends the run on the error path after the
single response call, with no second call and no dispatch. -/
theorem C7_llm_calls_at_most_once (client : BaseClient) (email : Email) (r : Result)
    (tr : List Event) (h : process_email client email = Except.ok (r, tr)) :
    (stages tr).count Stage.classify ≤ 1 ∧
    (stages tr).count Stage.respond ≤ 1 ∧
    ((validate_email_format email).fst = true →
        ∀ ev0, classify_email client email = Except.ok (none, ev0) →
          r.classification = some "other") ∧
    ((validate_email_format email).fst = true → r.success = false →
        stages tr = [Stage.classify, Stage.respond]) := by
  obtain ⟨idv, hid, hrid, hcases⟩ := process_email_spec client email r tr h
  rcases hcases with ⟨hvf, hs, hc, hrs, hst⟩ | ⟨hvt, cat, hc, hmem, hfb, hcase⟩
  · rw [hst]
    refine ⟨by decide, by decide, fun hvt => ?_, fun hvt => ?_⟩
    · rw [hvf] at hvt; exact absurd hvt (by simp)
    · rw [hvf] at hvt; exact absurd hvt (by simp)
  · rcases hcase with ⟨hsT, hrsT, hst⟩ | ⟨hsF, hrsF, hst, hpre⟩
    · rw [hst]
      refine ⟨by decide, by decide, fun _ ev0 h0 => ?_, fun _ hsFalse => ?_⟩
      · rw [hc, hfb ev0 h0]
      · rw [hsT] at hsFalse; exact absurd hsFalse (by simp)
    · rw [hst]
      refine ⟨by decide, by decide, fun _ ev0 h0 => ?_, fun _ _ => rfl⟩
      rw [hc, hfb ev0 h0]

theorem C7_llm_calls_at_most_once_witness :
    (stages (runTrace runOk)).count Stage.classify ≤ 1 ∧
    (stages (runTrace runOk)).count Stage.respond ≤ 1 ∧
    ((validate_email_format emailOk).fst = true →
        ∀ ev0, classify_email clientOk emailOk = Except.ok (none, ev0) →
          (runResult runOk).classification = some "other") ∧
    ((validate_email_format emailOk).fst = true → (runResult runOk).success = false →
        stages (runTrace runOk) = [Stage.classify, Stage.respond]) :=
  C7_llm_calls_at_most_once clientOk emailOk (runResult runOk) (runTrace runOk) (by decide)

/-- C9: every result dict returned by process_email satisfies
success = response_sent, and a successful result always records a
classification drawn from the five valid categories. -/
theorem C9_result_invariant (client : BaseClient) (email : Email) (r : Result) (tr : List Event)
    (h : process_email client email = Except.ok (r, tr)) :
    r.success = r.response_sent ∧
      (r.success = true → ∃ cat, r.classification = some cat ∧ cat ∈ valid_categories) := by
  obtain ⟨idv, hid, hrid, hcases⟩ := process_email_spec client email r tr h
  rcases hcases with ⟨hvf, hs, hc, hrs, hst⟩ | ⟨hvt, cat, hc, hmem, hfb, hcase⟩
  · exact ⟨by rw [hs, hrs], fun hsT => by rw [hsT] at hs; exact absurd hs (by simp)⟩
  · rcases hcase with ⟨hsT, hrsT, _⟩ | ⟨hsF, hrsF, _, _⟩
    · exact ⟨by rw [hsT, hrsT], fun _ => ⟨cat, hc, hmem⟩⟩
    · exact ⟨by rw [hsF, hrsF], fun hT => by rw [hT] at hsF; exact absurd hsF (by simp)⟩

theorem C9_result_invariant_witness :
    (runResult runOk).success = (runResult runOk).response_sent ∧
      ((runResult runOk).success = true →
        ∃ cat, (runResult runOk).classification = some cat ∧ cat ∈ valid_categories) :=
  C9_result_invariant clientOk emailOk (runResult runOk) (runTrace runOk) (by decide)

/-- C2: classify_email returns one of the five fixed categories or None (when
the client output is not in the set), and every email that passes validation
gets a recorded classification from the fixed set — a None classification is
replaced by "other". -/
theorem C2_classification_in_fixed_set (client : BaseClient) (email : Email) :
    (∀ c ev, classify_email client email = Except.ok (c, ev) →
        c = none ∨ ∃ cat, c = some cat ∧ cat ∈ valid_categories) ∧
    (∀ r tr, process_email client email = Except.ok (r, tr) →
        (validate_email_format email).fst = true →
        ∃ cat, r.classification = some cat ∧ cat ∈ valid_categories) := by
  constructor
  · intro c ev h
    unfold classify_email at h
    cases hg : get_email_subject_and_body email with
    | error e => rw [hg] at h; exact absurd h (by simp)
    | ok p =>
      obtain ⟨ed, ev1⟩ := p
      rw [hg] at h
      dsimp only at h
      split at h
      · split at h
        · simp only [Except.ok.injEq, Prod.mk.injEq] at h
          exact Or.inr ⟨_, h.1.symm, by assumption⟩
        · split at h
          · exact absurd h (by simp)
          · simp only [Except.ok.injEq, Prod.mk.injEq] at h
            exact Or.inl h.1.symm
      · split at h
        · exact absurd h (by simp)
        · simp only [Except.ok.injEq, Prod.mk.injEq] at h
          exact Or.inl h.1.symm
  · intro r tr h hv
    obtain ⟨idv, hid, hrid, hcases⟩ := process_email_spec client email r tr h
    rcases hcases with ⟨hvf, _, _, _, _⟩ | ⟨_, cat, hc, hmem, _, _⟩
    · rw [hvf] at hv; exact absurd hv (by simp)
    · exact ⟨cat, hc, hmem⟩

theorem C2_classification_in_fixed_set_witness :
    (runCls (classify_email clientOk emailOk) = none ∨
      ∃ cat, runCls (classify_email clientOk emailOk) = some cat ∧ cat ∈ valid_categories) ∧
    (∃ cat, (runResult runOk).classification = some cat ∧ cat ∈ valid_categories) :=
  ⟨(C2_classification_in_fixed_set clientOk emailOk).1
      (runCls (classify_email clientOk emailOk)) (runTrace (classify_email clientOk emailOk))
      (by decide),
   (C2_classification_in_fixed_set clientOk emailOk).2 (runResult runOk) (runTrace runOk)
      (by decide) (by decide)⟩

/-- C3: the dispatch table routes each classification to exactly the
documented downstream actions: complaint → urgent ticket + complaint
response; inquiry → standard response; feedback → feedback log + standard
response; support_request → support ticket + standard response; other, and
any classification absent from the table, → support ticket + standard
response. -/
theorem C3_dispatch_table (email : Email) (idv : Option String) (s b resp : String)
    (hid : email.id = some idv) (hs : email.subject = some (some s))
    (hb : email.body = some (some b)) :
    (∃ ev, response_handlers_get "complaint" email resp = Except.ok ev ∧
        downstream ev = [Event.createUrgentTicket idv "complaint" (subjectBody s b),
                         Event.sendComplaintResponse idv resp]) ∧
    (∃ ev, response_handlers_get "inquiry" email resp = Except.ok ev ∧
        downstream ev = [Event.sendStandardResponse idv resp]) ∧
    (∃ ev, response_handlers_get "feedback" email resp = Except.ok ev ∧
        downstream ev = [Event.logCustomerFeedback idv (subjectBody s b),
                         Event.sendStandardResponse idv resp]) ∧
    (∃ ev, response_handlers_get "support_request" email resp = Except.ok ev ∧
        downstream ev = [Event.createSupportTicket idv (subjectBody s b),
                         Event.sendStandardResponse idv resp]) ∧
    (∃ ev, response_handlers_get "other" email resp = Except.ok ev ∧
        downstream ev = [Event.createSupportTicket idv (subjectBody s b),
                         Event.sendStandardResponse idv resp]) ∧
    (∀ c, response_handlers.lookup c = none →
        ∃ ev, response_handlers_get c email resp = Except.ok ev ∧
          downstream ev = [Event.createSupportTicket idv (subjectBody s b),
                           Event.sendStandardResponse idv resp]) := by
  refine ⟨?_, ?_, ?_, ?_, ?_, ?_⟩
  · exact ⟨_, handle_complaint_run email idv s b resp hid hs hb,
      by simp [downstream, isDownstream]⟩
  · exact ⟨_, handle_inquiry_run email idv resp hid, by simp [downstream, isDownstream]⟩
  · exact ⟨_, handle_feedback_run email idv s b resp hid hs hb,
      by simp [downstream, isDownstream]⟩
  · exact ⟨_, handle_support_request_run email idv s b resp hid hs hb,
      by simp [downstream, isDownstream]⟩
  · exact ⟨_, handle_other_run email idv s b resp hid hs hb,
      by simp [downstream, isDownstream]⟩
  · intro c hc
    have hdefault : response_handlers_get c = handle_other := by
      unfold response_handlers_get
      rw [hc]
    rw [hdefault]
    exact ⟨_, handle_other_run email idv s b resp hid hs hb,
      by simp [downstream, isDownstream]⟩

theorem C3_dispatch_table_witness :
    (∃ ev, response_handlers_get "complaint" emailOk "R" = Except.ok ev ∧
        downstream ev = [Event.createUrgentTicket (some "123") "complaint"
                           (subjectBody "Hi" "Hello there"),
                         Event.sendComplaintResponse (some "123") "R"]) ∧
    (∃ ev, response_handlers_get "inquiry" emailOk "R" = Except.ok ev ∧
        downstream ev = [Event.sendStandardResponse (some "123") "R"]) ∧
    (∃ ev, response_handlers_get "feedback" emailOk "R" = Except.ok ev ∧
        downstream ev = [Event.logCustomerFeedback (some "123")
                           (subjectBody "Hi" "Hello there"),
                         Event.sendStandardResponse (some "123") "R"]) ∧
    (∃ ev, response_handlers_get "support_request" emailOk "R" = Except.ok ev ∧
        downstream ev = [Event.createSupportTicket (some "123")
                           (subjectBody "Hi" "Hello there"),
                         Event.sendStandardResponse (some "123") "R"]) ∧
    (∃ ev, response_handlers_get "other" emailOk "R" = Except.ok ev ∧
        downstream ev = [Event.createSupportTicket (some "123")
                           (subjectBody "Hi" "Hello there"),
                         Event.sendStandardResponse (some "123") "R"]) ∧
    (∀ c, response_handlers.lookup c = none →
        ∃ ev, response_handlers_get c emailOk "R" = Except.ok ev ∧
          downstream ev = [Event.createSupportTicket (some "123")
                             (subjectBody "Hi" "Hello there"),
                           Event.sendStandardResponse (some "123") "R"]) :=
  C3_dispatch_table emailOk (some "123") "Hi" "Hello there" "R" rfl rfl rfl

/-- C10: every valid category is a key of the response_prompts dict, so the
lookup response_prompts[classification] in generate_response never raises
KeyError in the pipeline; the "spam" entry is present but unreachable since
"spam" is not a valid classification. -/
theorem C10_response_prompts_never_keyerror (client : BaseClient) (email : Email) :
    (∀ c, c ∈ valid_categories → ∃ instruction, response_prompts.lookup c = some instruction) ∧
    "spam" ∉ valid_categories ∧
    response_prompts.lookup "spam" = some "Respond only with: [NO_RESPONSE]" ∧
    ((validate_email_format email).fst = true → ∀ c, c ∈ valid_categories →
        ∃ resp ev, generate_response client email c = Except.ok (resp, ev)) ∧
    (∀ r tr, process_email client email = Except.ok (r, tr) →
        (validate_email_format email).fst = true →
        ∃ cat, r.classification = some cat ∧ cat ∈ valid_categories ∧
          (response_prompts.lookup cat).isSome = true) := by
  refine ⟨?_, by decide, rfl, ?_, ?_⟩
  · intro c hc
    simp only [valid_categories, List.mem_cons, List.not_mem_nil, or_false] at hc
    rcases hc with rfl | rfl | rfl | rfl | rfl <;> exact ⟨_, rfl⟩
  · intro hv c hc
    obtain ⟨idv0, fromv, sv, bv, tv, h1, h2, h3, h4, h5, h6, h7, h8⟩ :=
      (validate_spec email).mp hv
    obtain ⟨resp, ev, hg, hstg⟩ := generate_response_run client email sv bv h3 h4 c hc
    exact ⟨resp, ev, hg⟩
  · intro r tr h hv
    obtain ⟨idv, hid, hrid, hcases⟩ := process_email_spec client email r tr h
    rcases hcases with ⟨hvf, _, _, _, _⟩ | ⟨_, cat, hc, hmem, _, _⟩
    · rw [hvf] at hv; exact absurd hv (by simp)
    · refine ⟨cat, hc, hmem, ?_⟩
      have hmem2 := hmem
      simp only [valid_categories, List.mem_cons, List.not_mem_nil, or_false] at hmem2
      rcases hmem2 with rfl | rfl | rfl | rfl | rfl <;> decide

theorem C10_response_prompts_never_keyerror_witness :
    ∃ cat, (runResult runOk).classification = some cat ∧ cat ∈ valid_categories ∧
      (response_prompts.lookup cat).isSome = true :=
  (C10_response_prompts_never_keyerror clientOk emailOk).2.2.2.2 (runResult runOk)
    (runTrace runOk) (by decide) (by decide)
